import Mathlib

/-!
Verification of the PDF table-reconstruction pipeline (`app.py`).

The development shallowly embeds the functions of `app.py` that the claims
touch:
* `validate_table_detection_response` (app.py:482) over a model of Python
  values (`PyVal`), reproducing Python's `isinstance` semantics where `bool`
  is a subclass of `int`;
* `call_gemini_for_json` (app.py:510): the external endpoint is a parameter
  assigning an outcome to each attempt; the embedding records the number of
  attempts made and the backoff sleeps performed;
* `detect_table` (app.py:560) and the page-failure carve-out of
  `process_single_page` (app.py:791-795);
* `clean_ai_html_response` (app.py:1261);
* `merge_final_pdf` (app.py:865), with the per-page external effects
  (HTML artifact presence, pdfkit conversion, original-page extraction,
  re-reading the per-page PDF) as an environment parameter.
-/

/-- Model of a Python/JSON value as produced by `json.loads`. -/
inductive PyVal where
  | none : PyVal
  | bool : Bool → PyVal
  | int : Int → PyVal
  | float : Rat → PyVal
  | str : String → PyVal
  | list : List PyVal → PyVal
  | dict : List (String × PyVal) → PyVal

/-- Dictionary membership/lookup (Python `key in d` / `d[key]`). -/
def dictGet : List (String × PyVal) → String → Option PyVal
  | [], _ => Option.none
  | (k, v) :: rest, key => if k = key then some v else dictGet rest key

/-- Python `isinstance(v, bool)`. -/
def PyVal.isBoolVal : PyVal → Bool
  | .bool _ => true
  | _ => false

/-- Python `isinstance(v, (int, float))`.  In Python `bool` is a subclass of
`int`, so booleans satisfy this check. -/
def PyVal.isNumeric : PyVal → Bool
  | .bool _ => true
  | .int _ => true
  | .float _ => true
  | _ => false

/-- Numeric value of a Python number used in comparisons
(`True == 1`, `False == 0`). -/
def PyVal.toRat : PyVal → Rat
  | .bool b => if b then 1 else 0
  | .int n => (n : Rat)
  | .float q => q
  | _ => 0

/-- Python truthiness (`if x:`). -/
def pyTruthy : PyVal → Bool
  | .none => false
  | .bool b => b
  | .int n => decide (n ≠ 0)
  | .float q => decide (q ≠ 0)
  | .str s => !s.isEmpty
  | .list l => !l.isEmpty
  | .dict d => !d.isEmpty

/-- Outcome of `validate_table_detection_response` (app.py:482): whether the
function returns `True`, and whether the out-of-range warning at
app.py:496-497 is logged on the way. -/
structure ValidationOutcome where
  valid : Bool
  rangeWarning : Bool
deriving DecidableEq, Repr

/-- `validate_table_detection_response` (app.py:482-498).  Missing fields and
wrong-typed fields return `False`; an out-of-range `confidenceScore` only
logs a warning and still returns `True`. -/
def validate_table_detection_response : PyVal → ValidationOutcome
  | .dict d =>
    match dictGet d "tableDetected", dictGet d "confidenceScore" with
    | some td, some cs =>
      if !td.isBoolVal then ⟨false, false⟩
      else if !cs.isNumeric then ⟨false, false⟩
      else if (0 : Rat) ≤ cs.toRat ∧ cs.toRat ≤ 1 then ⟨true, false⟩
      else ⟨true, true⟩
    | _, _ => ⟨false, false⟩
  | _ => ⟨false, false⟩

/-- Python `str.isspace`-style character class used by `str.strip()`. -/
def pyIsSpace (c : Char) : Bool :=
  c = ' ' || c = '\t' || c = '\n' || c = '\r' || c = '\x0b' || c = '\x0c'

/-- Characters of `s.strip()`: whitespace removed from both ends. -/
def pyStripChars (l : List Char) : List Char :=
  ((l.dropWhile pyIsSpace).reverse.dropWhile pyIsSpace).reverse

/-- Python `s.strip()`. -/
def pyStrip (s : String) : String :=
  ⟨pyStripChars s.toList⟩

/-- Does the character list start with the pattern? (Python `startswith`.) -/
def startsWithChars : List Char → List Char → Bool
  | _, [] => true
  | [], _ :: _ => false
  | c :: cs, p :: ps => c = p && startsWithChars cs ps

/-- Substring occurrence (Python `pat in s`). -/
def containsChars : List Char → List Char → Bool
  | [], pat => pat.isEmpty
  | c :: rest, pat => startsWithChars (c :: rest) pat || containsChars rest pat

/-- Replace the leftmost occurrence of `pat` by `rep`
(Python `s.replace(pat, rep, 1)`). -/
def replaceFirstChars : List Char → List Char → List Char → List Char
  | [], pat, rep => if pat.isEmpty then rep else []
  | c :: rest, pat, rep =>
    if startsWithChars (c :: rest) pat then rep ++ (c :: rest).drop pat.length
    else c :: replaceFirstChars rest pat rep

/-- Python `s.startswith(pat)`. -/
def pyStartsWith (s pat : String) : Bool :=
  startsWithChars s.toList pat.toList

/-- Python `s.endswith(pat)`. -/
def pyEndsWith (s pat : String) : Bool :=
  startsWithChars s.toList.reverse pat.toList.reverse

/-- Python `pat in s`. -/
def strContains (s pat : String) : Bool :=
  containsChars s.toList pat.toList

/-- Python `s.replace(pat, rep, 1)`. -/
def pyReplaceFirst (s pat rep : String) : String :=
  ⟨replaceFirstChars s.toList pat.toList rep.toList⟩

/-- Python `s[:-n]` for `0 < n ≤ len(s)` (drop the last `n` characters). -/
def strDropLast (s : String) (n : Nat) : String :=
  ⟨s.toList.take (s.toList.length - n)⟩

/-- `clean_ai_html_response` (app.py:1261-1267): strip a leading
three-backtick html fence marker (first occurrence), a trailing
three-backtick marker, then whitespace at both ends. -/
def clean_ai_html_response (response : String) : String :=
  let r1 := if pyStartsWith response "```html" then pyReplaceFirst response "```html" "" else response
  let r2 := if pyEndsWith r1 "```" then strDropLast r1 3 else r1
  pyStrip r2

/-- The rational 1.5 (written in normal form so that kernel evaluation needs
no normalization). -/
def ratOneAndHalf : Rat := ⟨3, 2, by decide, by decide⟩

/-- Outcome of one `generate_content` attempt inside `call_gemini_for_json`
(app.py:524-542), as seen by the code:
* `exn m`: the API call (or reading `response.text`) raised with message `m`
  — the generic `except` at app.py:547;
* `blocked fr`: `response.candidates` empty / no parts, with
  `prompt_feedback.block_reason = fr` (app.py:529-536);
* `ok raw parsed`: a response body `raw` was obtained; `parsed` is
  `json.loads raw` when that succeeds (`Option.none` models
  `json.JSONDecodeError`). -/
inductive GeminiAttempt where
  | exn (msg : String)
  | blocked (finishReason : String)
  | ok (raw : String) (parsed : Option PyVal)

/-- Return value of `call_gemini_for_json`, which in Python is always a dict:
the parsed dict on success, `{"error": msg}` on failure, and
`{"error": msg, "raw_text": raw}` on a JSON-parse failure (app.py:546). -/
inductive GeminiResult where
  | success (d : List (String × PyVal))
  | failure (msg : String)
  | parseFailure (msg : String) (rawText : String)

/-- Observable behaviour of one `call_gemini_for_json` call: how many attempts
were made (the per-attempt log at app.py:523), which backoff sleeps were
performed in order (`time.sleep` at app.py:552), and the returned dict. -/
structure GeminiCallResult where
  attempts : Nat
  sleeps : List Nat
  result : GeminiResult

/-- app.py:532: the message built for an empty/blocked response. -/
def emptyBlockedMsg (finishReason : String) : String :=
  "Gemini response empty or blocked. Finish Reason: " ++ finishReason

/-- app.py:555: the message surfacing the final attempt's error. -/
def failAfterMsg (maxRetries : Nat) (msg : String) : String :=
  "Gemini API call failed after " ++ toString maxRetries ++ " attempts: " ++ msg

/-- app.py:556: fall-through after the loop (unreachable when maxRetries > 0). -/
def failUnexpectedMsg (maxRetries : Nat) : String :=
  "Gemini API call failed unexpectedly after " ++ toString maxRetries ++ " attempts."

/-- app.py:544-546: parse-failure message for a body that is valid JSON but
not a dictionary (the `TypeError` raised at app.py:542). -/
def notDictMsg : String :=
  "Failed to parse Gemini response as JSON: parsed response is not a dictionary"

/-- app.py:544-546: parse-failure message for a non-JSON body
(`json.JSONDecodeError` from app.py:540). -/
def jsonDecodeMsg : String :=
  "Failed to parse Gemini response as JSON: invalid JSON"

/-- The `for attempt in range(max_retries)` loop of `call_gemini_for_json`
(app.py:521-556).  `env` gives each attempt's outcome; `attempt` is the
current 0-based attempt index and the last argument is the number of loop
iterations still available (`maxRetries - attempt` at every call).
Per iteration, following the source:
* a blocked response with a block reason other than `'STOP'` returns the
  error dict immediately (app.py:534-535);
* a blocked response with reason `'STOP'` raises, landing in the generic
  handler (app.py:536, 547);
* a body that fails to parse as a JSON dict returns the parse-error dict
  immediately, raw text included (app.py:544-546);
* a parsed dict is returned as success (app.py:543);
* the generic handler sleeps `delay * 2 ^ attempt` and retries while
  `attempt < max_retries - 1`, else returns the final error (app.py:547-555). -/
def geminiLoop (env : Nat → GeminiAttempt) (maxRetries delay : Nat) :
    Nat → Nat → GeminiCallResult
  | attempt, 0 => ⟨attempt, [], .failure (failUnexpectedMsg maxRetries)⟩
  | attempt, remaining + 1 =>
    match env attempt with
    | .blocked fr =>
      if fr = "STOP" then
        -- `raise ValueError` (app.py:536) caught by the generic handler
        if attempt + 1 < maxRetries then
          let rest := geminiLoop env maxRetries delay (attempt + 1) remaining
          ⟨rest.attempts, delay * 2 ^ attempt :: rest.sleeps, rest.result⟩
        else
          ⟨attempt + 1, [], .failure (failAfterMsg maxRetries (emptyBlockedMsg fr))⟩
      else
        ⟨attempt + 1, [], .failure (emptyBlockedMsg fr)⟩
    | .exn m =>
      if attempt + 1 < maxRetries then
        let rest := geminiLoop env maxRetries delay (attempt + 1) remaining
        ⟨rest.attempts, delay * 2 ^ attempt :: rest.sleeps, rest.result⟩
      else
        ⟨attempt + 1, [], .failure (failAfterMsg maxRetries m)⟩
    | .ok raw parsed =>
      match parsed with
      | some (.dict d) => ⟨attempt + 1, [], .success d⟩
      | some _ => ⟨attempt + 1, [], .parseFailure notDictMsg raw⟩
      | Option.none => ⟨attempt + 1, [], .parseFailure jsonDecodeMsg raw⟩

/-- `call_gemini_for_json` (app.py:510-556).  `apiKeyConfigured` models the
`GEMINI_API_KEY` guard at app.py:511-513; the Python defaults are
`max_retries = 3`, `delay = 5`. -/
def call_gemini_for_json (apiKeyConfigured : Bool) (env : Nat → GeminiAttempt)
    (maxRetries delay : Nat) : GeminiCallResult :=
  if !apiKeyConfigured then ⟨0, [], .failure "GEMINI_API_KEY not configured."⟩
  else geminiLoop env maxRetries delay 0 maxRetries

/-- The failure classes the generic `except` handler at app.py:547 retries:
a raised transport/processing exception, or the empty-response-with-STOP
`ValueError` raised at app.py:536. -/
def RetryableAttempt : GeminiAttempt → Prop
  | .exn _ => True
  | .blocked fr => fr = "STOP"
  | .ok _ _ => False

/-- The message `str(e)` of the exception the generic handler at app.py:547
sees for a retryable attempt. -/
def attemptExcMsg : GeminiAttempt → String
  | .exn m => m
  | .blocked fr => emptyBlockedMsg fr
  | .ok _ _ => ""

/-- The observable pieces of the `result` dict built by `detect_table`
(app.py:562-586) that the claims are about, plus instrumentation:
`geminiAttempts` counts classification-endpoint invocations (the attempts of
the one `call_gemini_for_json` call, 0 when no call is made) and `logTag`
records the `log_component` tag emitted in the empty-input branch
(app.py:568). -/
structure DetectResult where
  response : PyVal
  error : Option PyVal
  geminiAttempts : Nat
  logTag : Option String

/-- The default result of the empty-input branch (app.py:566). -/
def emptyInputResponse : PyVal :=
  .dict [("tableDetected", .bool false), ("confidenceScore", .float 0)]

/-- `detect_table` (app.py:560-591).
* `if not page_text or not page_text.strip()` (app.py:563) holds exactly when
  every character is whitespace (vacuously for the empty string): set the
  default response, the "Input page text was empty." error, log the
  `detectTable_EmptyInput` component and return without calling the endpoint
  (app.py:564-569).
* Otherwise call `call_gemini_for_json` with the Python defaults (3, 5); if
  the returned dict has an `"error"` key, keep it (app.py:575-578); else if
  validation fails, set the invalid-format error (app.py:579-584); else
  return the parsed response (app.py:585-586). -/
def detect_table (apiKeyConfigured : Bool) (env : Nat → GeminiAttempt)
    (page_text : String) : DetectResult :=
  if page_text.toList.all pyIsSpace then
    { response := emptyInputResponse,
      error := some (.str "Input page text was empty."),
      geminiAttempts := 0,
      logTag := some "detectTable_EmptyInput" }
  else
    let call := call_gemini_for_json apiKeyConfigured env 3 5
    match call.result with
    | .success d =>
      match dictGet d "error" with
      | some v =>
        { response := .dict d, error := some v,
          geminiAttempts := call.attempts, logTag := Option.none }
      | Option.none =>
        if (validate_table_detection_response (.dict d)).valid then
          { response := .dict d, error := Option.none,
            geminiAttempts := call.attempts, logTag := Option.none }
        else
          { response := .dict d,
            error := some (.str "Parsed table detection response has invalid format or values."),
            geminiAttempts := call.attempts, logTag := Option.none }
    | .failure m =>
      { response := .dict [("error", .str m)], error := some (.str m),
        geminiAttempts := call.attempts, logTag := Option.none }
    | .parseFailure m raw =>
      { response := .dict [("error", .str m), ("raw_text", .str raw)],
        error := some (.str m),
        geminiAttempts := call.attempts, logTag := Option.none }

/-- The table-detection part of `process_single_page` (app.py:791-795):
`if detection_result.get("error"):` takes the branch when the error value is
truthy, and the page is marked failed only when
`"Input page text was empty" not in err_msg`.  (Applying `in` to a
non-string error value would raise, which the enclosing handler at
app.py:826-828 turns into a page failure.) -/
def detectionCausesPageFailure (r : DetectResult) : Bool :=
  match r.error with
  | Option.none => false
  | some v =>
    if pyTruthy v then
      match v with
      | .str e => !strContains e "Input page text was empty"
      | _ => true
    else false

/-- Per-page external effects seen by `merge_final_pdf` for one page:
* `noHtml`: `page_{n}_full.html` does not exist (app.py:878);
* `convFail`: the artifact exists but `pdfkit.from_file` raised
  (app.py:887-892);
* `converted pages`: conversion produced a PDF whose page list is `pages`
  (the code appends its first page when non-empty, app.py:916-917). -/
inductive RenderOutcome (α : Type) where
  | noHtml
  | convFail
  | converted (pages : List α)

/-- Environment for one page of the merge:
`render` as above; `origOk` is whether extracting the original page and
writing the fallback file succeeds (app.py:895-904); `readOk` is whether the
chosen per-page file still exists and `PdfReader` + `add_page` on it succeed
(app.py:913-932). -/
structure MergePageEnv (α : Type) where
  render : RenderOutcome α
  origOk : Bool
  readOk : Bool

/-- The page list behind `page_to_add_path` for page `i` (0-based):
a successful conversion wins (app.py:885), else the original page `i` is
extracted when that succeeds (app.py:894-904), else nothing
(the `continue` at app.py:911). -/
def chosenSource {α : Type} (orig : List α) (i : Nat) (e : MergePageEnv α) :
    Option (List α) :=
  match e.render with
  | .converted ps => some ps
  | _ => if e.origOk then (orig[i]?).map (fun p => [p]) else none

/-- The page appended to the merger for page `i`, if any: the first page of
the chosen source when it exists, is readable and non-empty
(app.py:913-917); `none` when the page is skipped. -/
def pageAppend {α : Type} (orig : List α) (i : Nat) (e : MergePageEnv α) :
    Option α :=
  match chosenSource orig i e with
  | Option.none => Option.none
  | some ps => if e.readOk then ps.head? else Option.none

/-- Whether page `i` leaves `merge_is_successful` untouched: conversion
failure (app.py:891), fallback-extraction failure (app.py:909), read/append
failure (app.py:927, 931) and an empty chosen source (app.py:921) each clear
the flag. -/
def pageClean {α : Type} (orig : List α) (i : Nat) (e : MergePageEnv α) :
    Bool :=
  (match e.render with
   | .convFail => false
   | _ => true) &&
  (match chosenSource orig i e with
   | Option.none => false
   | some ps => e.readOk && !ps.isEmpty)

/-- Error messages recorded for page `i`, in the order the code records them
(used for `overall_merge_error_message`, which keeps the first). -/
def pageErrs {α : Type} (orig : List α) (i : Nat) (e : MergePageEnv α) :
    List String :=
  (match e.render with
   | .convFail => ["Page " ++ toString (i + 1) ++ " HTML conversion failed"]
   | _ => []) ++
  (match chosenSource orig i e with
   | Option.none => ["Page " ++ toString (i + 1) ++ " could not be extracted/added from original"]
   | some ps =>
     if !e.readOk then ["Page " ++ toString (i + 1) ++ " merging failed"]
     else if ps.isEmpty then ["Page " ++ toString (i + 1) ++ " source was empty"]
     else [])

/-- Return value of `merge_final_pdf` (app.py:865, 949): the
`merge_is_successful` flag, the output artifact (`None` when no file is
written, app.py:938-942) with the pages it contains, and
`overall_merge_error_message`. -/
structure MergeResult (α : Type) where
  mergeSuccess : Bool
  output : Option (List α)
  errorMsg : Option String

/-- `merge_final_pdf` (app.py:865-949) for a readable source document whose
pages are `orig`.  The loop at app.py:874-932 walks page indices `0..N-1` of
the source in order — the order in which concurrent page tasks completed is
not an input; tasks only determine the per-page environment `env`.  Each
iteration appends at most one page, ANDs the per-page clean flag into
`merge_is_successful`, and keeps the first error message.  After the loop
(app.py:934-942): with at least one appended page the output file is written;
with zero appended pages the merge fails hard and no output path is
returned. -/
def merge_final_pdf {α : Type} (orig : List α) (env : Nat → MergePageEnv α) :
    MergeResult α :=
  let idxs := List.range orig.length
  let appended := idxs.filterMap (fun i => pageAppend orig i (env i))
  let clean := idxs.all (fun i => pageClean orig i (env i))
  let errs := idxs.foldr (fun i acc => pageErrs orig i (env i) ++ acc) []
  if appended.isEmpty then
    { mergeSuccess := false, output := Option.none,
      errorMsg := some (errs.head?.getD "No pages could be merged.") }
  else
    { mergeSuccess := clean, output := some appended, errorMsg := errs.head? }

/-- The caller-visible verdict of a run (spec §7). -/
inductive RunVerdict where
  | fullSuccess
  | degradedSuccess
  | failed
deriving DecidableEq, Repr

/-- Modelled from the spec: no caller of `merge_final_pdf` exists under src/,
so the mapping from pipeline results to the tri-state verdict of §7
("success, succeeded-with-degraded-pages, or failed") is missing from the
source.  Per §7/§4.8: run-fatal outcomes produce no output artifact and are
"failed"; an output artifact with no page-level failure and a fully clean
merge is full success; an output artifact with any degradation is
"succeeded with degraded pages".  `processingOk` is the success flag of the
page-processing phase (`process_pdf_in_tempdir`, app.py:859). -/
def runVerdict {α : Type} (processingOk : Bool) (r : MergeResult α) :
    RunVerdict :=
  match r.output with
  | Option.none => .failed
  | some _ => if processingOk && r.mergeSuccess then .fullSuccess else .degradedSuccess

/-- Python `isinstance(v, dict)`. -/
def PyVal.isDictVal : PyVal → Bool
  | .dict _ => true
  | _ => false

/-- Environment refuting C1 as stated: the only page's HTML artifact exists
and pdfkit conversion succeeds, but the converted PDF has zero pages — the
code (app.py:916-922) then appends nothing and never falls back to the
original page, although the original is perfectly extractable. -/
def emptyRenderEnv : Nat → MergePageEnv String :=
  fun _ => ⟨.converted [], true, true⟩

/-- Witness for the amended C1: a 3-page document whose middle page has a
successfully rendered non-empty artifact and whose other pages have none
merges to exactly 3 pages, the render for page 2 and the originals
elsewhere. -/
def mixedEnv : Nat → MergePageEnv String := fun i =>
  if i = 1 then ⟨.converted ["r2"], true, true⟩ else ⟨.noHtml, true, true⟩

/-- Witness for C7: the renderer fails for page 3 of a 5-page document, the
other pages have no artifact; the merge yields 5 pages, page 3 is the
original page 3, and the verdict is degraded success. -/
def rendererFailEnv : Nat → MergePageEnv String := fun i =>
  if i = 2 then ⟨.convFail, true, true⟩ else ⟨.noHtml, true, true⟩

/-- Witness for C8: a 2-page document where no page has a rendered artifact
and both original-page extractions fail merges to no output and a failed
verdict. -/
def allFailEnv : Nat → MergePageEnv String := fun _ => ⟨.noHtml, false, true⟩

/-- A filterMap whose function is `some` on every element preserves length. -/
theorem filterMap_length_of_isSome {β γ : Type} (l : List β) (f : β → Option γ)
    (h : ∀ a ∈ l, (f a).isSome = true) :
    (l.filterMap f).length = l.length := by
  induction l with
  | nil => simp
  | cons a t ih =>
    obtain ⟨b, hb⟩ := Option.isSome_iff_exists.mp (h a (List.mem_cons_self a t))
    simp [List.filterMap_cons, hb, ih (fun x hx => h x (List.mem_cons_of_mem a hx))]

/-- Elementwise description of a filterMap whose function is `some` on every
element. -/
theorem filterMap_getElem?_of_isSome {β γ : Type} (l : List β) (f : β → Option γ)
    (h : ∀ a ∈ l, (f a).isSome = true) (i : Nat) :
    (l.filterMap f)[i]? = (l[i]?).bind f := by
  induction l generalizing i with
  | nil => simp
  | cons a t ih =>
    obtain ⟨b, hb⟩ := Option.isSome_iff_exists.mp (h a (List.mem_cons_self a t))
    cases i with
    | zero => simp [List.filterMap_cons, hb]
    | succ j =>
      simp only [List.filterMap_cons, hb, List.getElem?_cons_succ]
      exact ih (fun x hx => h x (List.mem_cons_of_mem a hx)) j

/-- C9: the markup post-processing step strips leading/trailing code-fence
wrapper markers: cleaning the string consisting of a three-backtick html
fence, a newline, the document, a newline and a closing three-backtick fence
yields exactly the document, with no residual fence markers in the output. -/
theorem clean_ai_html_response_strips_fences :
    clean_ai_html_response "```html\n<html>...</html>\n```" = "<html>...</html>" ∧
    strContains (clean_ai_html_response "```html\n<html>...</html>\n```") "```" = false := by
  decide

/-- C10: validation accepts a classification response whose confidenceScore
is the boolean True: Python's `isinstance(x, (int, float))` admits booleans
(bool is a subclass of int), and True compares as the number 1, inside
[0.0, 1.0], so not even the range warning fires. -/
theorem validate_accepts_boolean_confidence :
    (validate_table_detection_response
      (.dict [("tableDetected", .bool false), ("confidenceScore", .bool true)])) =
      ⟨true, false⟩ ∧
    (PyVal.bool true).isNumeric = true ∧
    (0 : Rat) ≤ (PyVal.bool true).toRat ∧ (PyVal.bool true).toRat ≤ 1 := by
  decide

/-- C3: a classification response missing either required field, or with a
wrong-typed present field, is rejected as invalid; but the response with
tableDetected false and confidenceScore 1.5 — a number outside [0.0, 1.0] —
is accepted as valid with only the range warning logged. -/
theorem validate_response_asymmetry (d : List (String × PyVal)) :
    ((dictGet d "tableDetected" = Option.none ∨ dictGet d "confidenceScore" = Option.none) →
      (validate_table_detection_response (.dict d)).valid = false) ∧
    (∀ td, dictGet d "tableDetected" = some td → td.isBoolVal = false →
      (validate_table_detection_response (.dict d)).valid = false) ∧
    (∀ cs, dictGet d "confidenceScore" = some cs → cs.isNumeric = false →
      (validate_table_detection_response (.dict d)).valid = false) ∧
    validate_table_detection_response
      (.dict [("tableDetected", .bool false), ("confidenceScore", .float ratOneAndHalf)]) =
      ⟨true, true⟩ := by
  refine ⟨?_, ?_, ?_, by decide⟩
  · rintro (h | h) <;>
      simp [validate_table_detection_response, h]
  · intro td htd hb
    cases hcs : dictGet d "confidenceScore" <;>
      simp [validate_table_detection_response, htd, hcs, hb]
  · intro cs hcs hn
    cases htd : dictGet d "tableDetected" <;>
      simp [validate_table_detection_response, htd, hcs, hn]

/-- Witness for C3 at concrete responses: one with no fields, one missing
only confidenceScore, one with a string tableDetected, one with a string
confidenceScore, and the accepted out-of-range response. -/
theorem validate_response_asymmetry_witness :
    (validate_table_detection_response (.dict [])).valid = false ∧
    (validate_table_detection_response (.dict [("tableDetected", .bool true)])).valid = false ∧
    (validate_table_detection_response
      (.dict [("tableDetected", .str "yes"), ("confidenceScore", .float 0)])).valid = false ∧
    (validate_table_detection_response
      (.dict [("tableDetected", .bool true), ("confidenceScore", .str "0.5")])).valid = false ∧
    validate_table_detection_response
      (.dict [("tableDetected", .bool false), ("confidenceScore", .float ratOneAndHalf)]) =
      ⟨true, true⟩ :=
  ⟨(validate_response_asymmetry []).1 (Or.inl rfl),
   (validate_response_asymmetry [("tableDetected", .bool true)]).1 (Or.inr rfl),
   (validate_response_asymmetry _).2.1 (.str "yes") rfl rfl,
   (validate_response_asymmetry _).2.2.1 (.str "0.5") rfl rfl,
   (validate_response_asymmetry []).2.2.2⟩

/-- C5: a classifier call whose first attempt comes back empty/blocked with a
block reason other than the normal 'STOP' condition returns the error dict
immediately: exactly 1 attempt, no backoff sleeps, never retried. -/
theorem gemini_blocked_single_attempt (env : Nat → GeminiAttempt) (fr : String)
    (h0 : env 0 = .blocked fr) (hfr : fr ≠ "STOP") :
    call_gemini_for_json true env 3 5 =
      ⟨1, [], .failure (emptyBlockedMsg fr)⟩ := by
  simp [call_gemini_for_json, geminiLoop, h0, hfr]

/-- Witness for C5: a call blocked with reason SAFETY makes exactly one
attempt and surfaces the blocked-response error. -/
theorem gemini_blocked_single_attempt_witness :
    call_gemini_for_json true (fun _ => .blocked "SAFETY") 3 5 =
      ⟨1, [], .failure (emptyBlockedMsg "SAFETY")⟩ :=
  gemini_blocked_single_attempt (fun _ => .blocked "SAFETY") "SAFETY" rfl (by decide)

/-- C6: when the endpoint responds successfully but the body fails to parse
as a JSON dictionary — invalid JSON, or valid JSON that is not a dict — the
call returns immediately after that one attempt with a parse-error dict that
preserves the offending raw response text; it is never retried. -/
theorem gemini_parse_failure_no_retry (env : Nat → GeminiAttempt) (raw : String) :
    (env 0 = .ok raw Option.none →
      call_gemini_for_json true env 3 5 = ⟨1, [], .parseFailure jsonDecodeMsg raw⟩) ∧
    (∀ v, env 0 = .ok raw (some v) → v.isDictVal = false →
      call_gemini_for_json true env 3 5 = ⟨1, [], .parseFailure notDictMsg raw⟩) := by
  constructor
  · intro h0
    simp [call_gemini_for_json, geminiLoop, h0]
  · intro v h0 hv
    cases v <;> simp_all [call_gemini_for_json, geminiLoop, PyVal.isDictVal]

/-- One retry iteration of the loop: a retryable attempt with retries left
sleeps `delay * 2 ^ attempt` and continues with the next attempt. -/
theorem geminiLoop_retry_step (env : Nat → GeminiAttempt) (i r : Nat)
    (hi : i + 1 < 3) (hr : RetryableAttempt (env i)) :
    geminiLoop env 3 5 i (r + 1) =
      ⟨(geminiLoop env 3 5 (i + 1) r).attempts,
       5 * 2 ^ i :: (geminiLoop env 3 5 (i + 1) r).sleeps,
       (geminiLoop env 3 5 (i + 1) r).result⟩ := by
  cases e : env i <;> rw [e] at hr
  · simp only [geminiLoop, e]
    simp [hi]
  · simp only [RetryableAttempt] at hr
    subst hr
    simp only [geminiLoop, e]
    simp [hi]
  · exact absurd hr (by simp [RetryableAttempt])

/-- C4: a classifier call whose every attempt fails with a retryable
(transient) error makes exactly 3 attempts, sleeping the exponential-backoff
delays 5s then 10s between them (base 5, doubling), and surfaces the final
attempt's error to the caller. -/
theorem gemini_retries_three_times_with_backoff (env : Nat → GeminiAttempt)
    (h : ∀ i, i < 3 → RetryableAttempt (env i)) :
    call_gemini_for_json true env 3 5 =
      ⟨3, [5, 10], .failure (failAfterMsg 3 (attemptExcMsg (env 2)))⟩ := by
  have r2 := h 2 (by omega)
  have L2 : geminiLoop env 3 5 2 1 =
      ⟨3, [], .failure (failAfterMsg 3 (attemptExcMsg (env 2)))⟩ := by
    cases e : env 2 <;> rw [e] at r2
    · simp [geminiLoop, e, attemptExcMsg]
    · simp only [RetryableAttempt] at r2
      subst r2
      simp [geminiLoop, e, attemptExcMsg]
    · exact absurd r2 (by simp [RetryableAttempt])
  have L1 := geminiLoop_retry_step env 1 1 (by omega) (h 1 (by omega))
  norm_num [L2] at L1
  have L0 := geminiLoop_retry_step env 0 2 (by omega) (h 0 (by omega))
  norm_num [L1] at L0
  simpa [call_gemini_for_json] using L0

/-- Witness for C4: all-transient attempts give 3 attempts, sleeps [5, 10],
and the third attempt's message in the surfaced error. -/
theorem gemini_retries_three_times_with_backoff_witness :
    call_gemini_for_json true (fun _ => .exn "transient") 3 5 =
      ⟨3, [5, 10], .failure (failAfterMsg 3 "transient")⟩ :=
  gemini_retries_three_times_with_backoff (fun _ => .exn "transient")
    (fun _ _ => trivial)

/-- C2: for every input string that is empty or whitespace-only,
`detect_table` short-circuits to the default response (tableDetected false,
confidenceScore 0.0), makes zero classification-endpoint attempts, logs the
dedicated empty-input component, and the resulting error is carved out by
`process_single_page`, so it does not count as a page-level failure. -/
theorem detect_table_empty_input (apiKeyConfigured : Bool)
    (env : Nat → GeminiAttempt) (s : String)
    (h : s.toList.all pyIsSpace = true) :
    detect_table apiKeyConfigured env s =
      { response := emptyInputResponse,
        error := some (.str "Input page text was empty."),
        geminiAttempts := 0,
        logTag := some "detectTable_EmptyInput" } ∧
    detectionCausesPageFailure (detect_table apiKeyConfigured env s) = false := by
  have h1 : detect_table apiKeyConfigured env s =
      { response := emptyInputResponse,
        error := some (.str "Input page text was empty."),
        geminiAttempts := 0,
        logTag := some "detectTable_EmptyInput" } := by
    unfold detect_table
    rw [h]
    simp
  refine ⟨h1, ?_⟩
  rw [h1]
  decide

/-- Witness for C2: a whitespace-only page text (spaces, tab, newline)
short-circuits to the default result without a page failure. -/
theorem detect_table_empty_input_witness :
    detect_table true (fun _ => .exn "never called") " \t\n " =
      { response := emptyInputResponse,
        error := some (.str "Input page text was empty."),
        geminiAttempts := 0,
        logTag := some "detectTable_EmptyInput" } ∧
    detectionCausesPageFailure
      (detect_table true (fun _ => .exn "never called") " \t\n ") = false :=
  detect_table_empty_input true (fun _ => .exn "never called") " \t\n " (by decide)

/-- Witness for C6: a non-JSON body and a JSON-array body each fail after
exactly one attempt, raw text preserved. -/
theorem gemini_parse_failure_no_retry_witness :
    call_gemini_for_json true (fun _ => .ok "not json" Option.none) 3 5 =
      ⟨1, [], .parseFailure jsonDecodeMsg "not json"⟩ ∧
    call_gemini_for_json true (fun _ => .ok "[1]" (some (.list [.int 1]))) 3 5 =
      ⟨1, [], .parseFailure notDictMsg "[1]"⟩ :=
  ⟨(gemini_parse_failure_no_retry (fun _ => .ok "not json" Option.none) "not json").1 rfl,
   (gemini_parse_failure_no_retry (fun _ => .ok "[1]" (some (.list [.int 1]))) "[1]").2
     (.list [.int 1]) rfl rfl⟩

/-- A page whose render outcome is not a successful conversion, and whose
append succeeds, contributes exactly the original page `i`. -/
theorem pageAppend_eq_orig {α : Type} (orig : List α) (i : Nat)
    (e : MergePageEnv α) (hr : ∀ q, e.render ≠ .converted q)
    (hs : (pageAppend orig i e).isSome = true) :
    pageAppend orig i e = orig[i]? := by
  obtain ⟨render, origOk, readOk⟩ := e
  cases render with
  | converted q => exact absurd rfl (hr q)
  | noHtml =>
    cases origOk <;> cases readOk <;> cases horig : orig[i]? <;>
      simp_all [pageAppend, chosenSource]
  | convFail =>
    cases origOk <;> cases readOk <;> cases horig : orig[i]? <;>
      simp_all [pageAppend, chosenSource]

/-- Shape of the merge result when every page appends a page: the output is
produced, `merge_is_successful` is the conjunction of the per-page clean
flags, and the output lists exactly the per-page appended pages in page
order. -/
theorem merge_output_spec {α : Type} (orig : List α)
    (env : Nat → MergePageEnv α) (hne : orig ≠ [])
    (h : ∀ i, i < orig.length → (pageAppend orig i (env i)).isSome = true) :
    ∃ ps, (merge_final_pdf orig env).output = some ps ∧
      (merge_final_pdf orig env).mergeSuccess =
        (List.range orig.length).all (fun i => pageClean orig i (env i)) ∧
      ps.length = orig.length ∧
      ∀ i, i < orig.length → ps[i]? = pageAppend orig i (env i) := by
  have hmem : ∀ a ∈ List.range orig.length,
      ((fun i => pageAppend orig i (env i)) a).isSome = true :=
    fun a ha => h a (List.mem_range.mp ha)
  have hlen : ((List.range orig.length).filterMap
      (fun i => pageAppend orig i (env i))).length = orig.length := by
    rw [filterMap_length_of_isSome _ _ hmem, List.length_range]
  have hemp : ((List.range orig.length).filterMap
      (fun i => pageAppend orig i (env i))).isEmpty = false := by
    rw [List.isEmpty_eq_false]
    intro he
    rw [he] at hlen
    exact hne (List.length_eq_zero.mp hlen.symm)
  refine ⟨(List.range orig.length).filterMap (fun i => pageAppend orig i (env i)),
    ?_, ?_, hlen, ?_⟩
  · simp [merge_final_pdf, hemp]
  · simp [merge_final_pdf, hemp]
  · intro i hi
    rw [filterMap_getElem?_of_isSome _ _ hmem i, List.getElem?_range hi,
      Option.some_bind]

/-- C1 (amended): for every N-page source document, provided every page's
chosen per-page source appends successfully (the rendered artifact, where it
exists and converts, is non-empty and readable; otherwise the original page
extracts and reads successfully), the merged output exists and has exactly N
pages in original page order — page i is the page appended for source page i,
and every page without a successful conversion is the original page i.  The
completion order of the concurrent page tasks is not an input to the merger:
it walks source page indices in order, so the result depends only on the
per-page artifact state.  (Unconditionally the claim is false: a page whose
append fails — e.g. a successfully converted but empty rendered PDF, or a
failed original-page extraction — is skipped, not substituted; see the
counterexample.) -/
theorem merge_output_complete_of_appends {α : Type} (orig : List α)
    (env : Nat → MergePageEnv α) (hne : orig ≠ [])
    (h : ∀ i, i < orig.length → (pageAppend orig i (env i)).isSome = true) :
    ∃ ps, (merge_final_pdf orig env).output = some ps ∧
      ps.length = orig.length ∧
      (∀ i, i < orig.length → ps[i]? = pageAppend orig i (env i)) ∧
      (∀ i, i < orig.length → (∀ q, (env i).render ≠ .converted q) →
        ps[i]? = orig[i]?) := by
  obtain ⟨ps, ho, -, hlen, hget⟩ := merge_output_spec orig env hne h
  exact ⟨ps, ho, hlen, hget, fun i hi hr =>
    (hget i hi).trans (pageAppend_eq_orig orig i (env i) hr (h i hi))⟩

/-- Counterexample to C1 as stated: for the 1-page document whose page's
rendered artifact converts to an empty PDF, the merger appends nothing —
the output is absent rather than a 1-page document, so the merger skipped
index 1. -/
theorem merge_skips_page_counterexample :
    (merge_final_pdf ["page1"] emptyRenderEnv).output = Option.none ∧
    ¬ ∃ ps, (merge_final_pdf ["page1"] emptyRenderEnv).output = some ps ∧
      ps.length = 1 := by
  have h0 : (merge_final_pdf ["page1"] emptyRenderEnv).output = Option.none := rfl
  refine ⟨h0, ?_⟩
  rintro ⟨ps, hps, -⟩
  rw [h0] at hps
  cases hps

theorem merge_output_complete_of_appends_witness :
    ∃ ps, (merge_final_pdf ["a", "b", "c"] mixedEnv).output = some ps ∧
      ps.length = 3 ∧
      (∀ i, i < 3 → ps[i]? = pageAppend ["a", "b", "c"] i (mixedEnv i)) ∧
      (∀ i, i < 3 → (∀ q, (mixedEnv i).render ≠ .converted q) →
        ps[i]? = (["a", "b", "c"] : List String)[i]?) :=
  merge_output_complete_of_appends ["a", "b", "c"] mixedEnv (by decide)
    (fun i hi => by
      have hi3 : i < 3 := hi
      interval_cases i <;> rfl)

/-- C7: if the markup-to-page renderer (pdfkit) fails for page k+1 of an
N-page document while every page's append succeeds, the merger substitutes
the original page for that page and continues: the output has all N pages,
page k+1 equals original page k+1, and the run verdict is
succeeded-with-degraded-pages, not failed — whatever the processing-phase
flag was. -/
theorem merge_renderer_failure_fallback_degraded {α : Type} (orig : List α)
    (env : Nat → MergePageEnv α) (pOk : Bool) (k : Nat) (hk : k < orig.length)
    (hke : env k = ⟨.convFail, true, true⟩)
    (h : ∀ i, i < orig.length → (pageAppend orig i (env i)).isSome = true) :
    ∃ ps, (merge_final_pdf orig env).output = some ps ∧
      ps.length = orig.length ∧
      ps[k]? = orig[k]? ∧
      runVerdict pOk (merge_final_pdf orig env) = .degradedSuccess := by
  have hne : orig ≠ [] := by
    intro h0
    rw [h0] at hk
    simp at hk
  obtain ⟨ps, ho, hsucc, hlen, hget⟩ := merge_output_spec orig env hne h
  have hkpage : ps[k]? = orig[k]? :=
    (hget k hk).trans
      (pageAppend_eq_orig orig k (env k) (by simp [hke]) (h k hk))
  have hallfalse :
      (List.range orig.length).all (fun i => pageClean orig i (env i)) = false := by
    cases hall : (List.range orig.length).all (fun i => pageClean orig i (env i))
    · rfl
    · exfalso
      have hcl := List.all_eq_true.mp hall k (List.mem_range.mpr hk)
      rw [hke] at hcl
      simp [pageClean, chosenSource] at hcl
  refine ⟨ps, ho, hlen, hkpage, ?_⟩
  simp [runVerdict, ho, hsucc, hallfalse]

theorem merge_renderer_failure_fallback_degraded_witness :
    ∃ ps, (merge_final_pdf ["p1", "p2", "p3", "p4", "p5"] rendererFailEnv).output
        = some ps ∧
      ps.length = 5 ∧
      ps[2]? = (["p1", "p2", "p3", "p4", "p5"] : List String)[2]? ∧
      runVerdict true (merge_final_pdf ["p1", "p2", "p3", "p4", "p5"] rendererFailEnv)
        = .degradedSuccess :=
  merge_renderer_failure_fallback_degraded ["p1", "p2", "p3", "p4", "p5"]
    rendererFailEnv true 2 (by decide) rfl
    (fun i hi => by
      have hi5 : i < 5 := hi
      interval_cases i <;> rfl)

/-- C8: if zero pages end up appended during the merge — every rendered
substitute and every original-page extraction fails — the merge is a hard
failure: no output artifact is produced and the run verdict is failed,
whatever the processing-phase flag was. -/
theorem merge_zero_pages_failed {α : Type} (orig : List α)
    (env : Nat → MergePageEnv α) (pOk : Bool)
    (h : ∀ i, i < orig.length → pageAppend orig i (env i) = Option.none) :
    (merge_final_pdf orig env).output = Option.none ∧
    runVerdict pOk (merge_final_pdf orig env) = .failed := by
  have hnil : (List.range orig.length).filterMap
      (fun i => pageAppend orig i (env i)) = [] :=
    List.filterMap_eq_nil_iff.mpr (fun a ha => h a (List.mem_range.mp ha))
  have ho : (merge_final_pdf orig env).output = Option.none := by
    simp [merge_final_pdf, hnil]
  exact ⟨ho, by simp [runVerdict, ho]⟩

theorem merge_zero_pages_failed_witness :
    (merge_final_pdf ["p1", "p2"] allFailEnv).output = Option.none ∧
    runVerdict true (merge_final_pdf ["p1", "p2"] allFailEnv) = .failed :=
  merge_zero_pages_failed ["p1", "p2"] allFailEnv true
    (fun i hi => by
      have hi2 : i < 2 := hi
      interval_cases i <;> rfl)
